import Mathlib

/-!
Shallow embedding of the `gpu-array` terminal GPU dashboard
(`gpu_array/tui.py`, `gpu_array/query.py`, `gpu_array/scripts/__main__.py`)
together with theorems settling the specification claims about it.

Python integers are embedded as `Nat`/`Int`, Python floats (which here only
ever hold exact decimal telemetry readings) as `ℚ` with `int()` truncation
made explicit, exceptions as `Except`, and `None` as `Option`.
-/

namespace GpuArray

/-! ### Severity colors (`FrontEnd._determine_color`) -/

/-- The three curses color pairs registered by `curses_init`:
pair 1 = low (green), pair 2 = medium (yellow), pair 3 = high (red). -/
inductive Color where
  | low
  | medium
  | high
  deriving DecidableEq, Repr

/-- Embeds `FrontEnd._determine_color`:
`if val < 33: pair 1  elif val > 33 and val < 66: pair 2  else: pair 3`. -/
def determineColor (val : Int) : Color :=
  if val < 33 then Color.low
  else if 33 < val ∧ val < 66 then Color.medium
  else Color.high

/-! ### Grid layout (`FrontEnd._initialize_gpu_windows`) -/

/-- `FrontEnd.card_buffer_y`. -/
def cardBufferY : Nat := 10

/-- `FrontEnd.card_buffer_x`. -/
def cardBufferX : Nat := 10

/-- Python `min` on `(val, idx)` pairs: lexicographic, first minimum kept. -/
def pyMinPair (a b : Int × Nat) : Int × Nat :=
  if b.1 < a.1 ∨ (b.1 = a.1 ∧ b.2 < a.2) then b else a

/-- Python `min(seq)`: `none` models the `ValueError` raised on an empty
sequence. -/
def pyMinList : List (Int × Nat) → Option (Int × Nat)
  | [] => none
  | x :: xs => some (xs.foldl pyMinPair x)

/-- Embeds the `win_rows` computation of `FrontEnd._initialize_gpu_windows`:
`powers = [i**2 for i in range(1, 4)]`,
`diffs = [i - self.tracker.num_gpus for i in powers]`,
`_, idx = min((val, idx) for (idx, val) in enumerate(diffs) if val >= 0)`,
`win_rows = idx + 1`. `none` models the `ValueError` from an empty `min`. -/
def initializeWinRows (numGpus : Nat) : Option Nat :=
  let powers : List Nat := (List.range 3).map fun i => (i + 1) ^ 2
  let diffs : List Int := powers.map fun p => (p : Int) - (numGpus : Int)
  let pairs := (diffs.zip (List.range 3)).filter fun vi => 0 ≤ vi.1
  match pyMinList pairs with
  | none => none
  | some vi => some (vi.2 + 1)

/-- Errors `_initialize_gpu_windows` can raise: the uncaught `ValueError`
from `min` over an empty sequence (more than nine devices), and the two
explicit `RuntimeError` cases for undersized terminals. -/
inductive LayoutError where
  | valueErrorMinEmpty
  | terminalTooSmallY
  | terminalTooSmallX
  deriving DecidableEq, Repr

/-- The geometry produced by `_initialize_gpu_windows`: the grid side
`win_rows` and the per-cell `win_size_y`/`win_size_x`. -/
structure Grid where
  winRows : Nat
  winSizeY : Nat
  winSizeX : Nat
  deriving DecidableEq, Repr

/-- Embeds `FrontEnd._initialize_gpu_windows` on terminal size
`rows × cols` and device count `numGpus`:
`win_size_y = (rows // win_rows) - 1`, `win_size_x = (cols // win_rows) - 1`,
then the two `RuntimeError` guards `win_size_y <= card_buffer_y` and
`win_size_x <= card_buffer_x`.  (Nat subtraction truncates the Python value
`-1` to `0`; both fail the `≤ 10` guard identically.) -/
def initializeGpuWindows (rows cols numGpus : Nat) : Except LayoutError Grid :=
  match initializeWinRows numGpus with
  | none => .error .valueErrorMinEmpty
  | some winRows =>
    let winSizeY := rows / winRows - 1
    let winSizeX := cols / winRows - 1
    if winSizeY ≤ cardBufferY then .error .terminalTooSmallY
    else if winSizeX ≤ cardBufferX then .error .terminalTooSmallX
    else .ok ⟨winRows, winSizeY, winSizeX⟩

/-- Embeds the device→cell mapping used by `_draw_overwatch` and
`_draw_process`: `row = gpu_id // self.win_rows`, `col = gpu_id % self.win_rows`. -/
def devicePos (winRows gpuId : Nat) : Nat × Nat :=
  (gpuId / winRows, gpuId % winRows)

/-- Linear search for the smallest `g` at or above the accumulator with
`g² ≥ n`, with enough fuel to reach it. -/
def ceilSqrtFrom (n : Nat) : Nat → Nat → Nat
  | 0, g => g
  | fuel + 1, g => if n ≤ g * g then g else ceilSqrtFrom n fuel (g + 1)

/-- `ceil (sqrt n)` for `n ≥ 1`, the spec's formula for the grid side:
the smallest `G ≥ 1` with `G² ≥ n`. -/
def ceilSqrt (n : Nat) : Nat :=
  ceilSqrtFrom n n 1

/-! ### Data model (`GPUQuery.parse_gpu_props`) -/

/-- One entry of the per-GPU `processes` dict: `name` is the basename of the
XML-reported `process_name`, while `user`, `lifetime` and `command` come from
the `ps --no-headers -p PID -o user,comm,etime` lookup. -/
structure ProcessInfo where
  name : String
  mem : Nat
  user : String
  lifetime : String
  command : String
  deriving DecidableEq, Repr

/-- The `gpu_props` dict built by `GPUQuery.parse_gpu_props`.  Memory fields
are parsed with `int(...)`, fan and utilization with `int(...)`, temperature
and power with `float(...)` (embedded as exact rationals).  `processes`
keeps the pid → info entries in insertion order. -/
structure DeviceSnapshot where
  name : String
  totalMem : Nat
  usedMem : Nat
  fan : Int
  temp : ℚ
  maxTemp : ℚ
  usedPower : ℚ
  powerLimit : ℚ
  utilization : Int
  processes : List (Nat × ProcessInfo)
  deriving DecidableEq, Repr

/-- `Tracker.props_buffer` content: the dict `{i: parse_gpu_props(gpu)}`
keyed by the dense enumeration index, embedded positionally. -/
abbrev SnapshotSet : Type := List DeviceSnapshot

/-! ### Tracker (`query.py`) -/

/-- An exception escaping the snapshot fetch (`nvidia-smi` call or XML
parse inside `Tracker.poll`). -/
inductive FetchError where
  | fetchFailure
  deriving DecidableEq, Repr

/-- The mutable attributes of a `Tracker`. -/
structure TrackerState where
  pollingRate : Nat
  propsBuffer : Option SnapshotSet
  numGpus : Nat
  deriving DecidableEq, Repr

/-- Embeds `Tracker.poll`: run the fetch; on success overwrite
`props_buffer` with the new snapshot set.  A raised `FetchError` is
returned as `.error` and the caller's `TrackerState` stays whatever it was
(`props_buffer` is only assigned after a successful fetch and parse). -/
def trackerPoll (fetch : Except FetchError SnapshotSet) (st : TrackerState) :
    Except FetchError TrackerState :=
  match fetch with
  | .error e => .error e
  | .ok snaps => .ok { st with propsBuffer := some snaps }

/-- Embeds `Tracker.__init__(query, polling_rate=1)`: initialize the
attributes, call `self.poll()` (whose exception propagates out of the
constructor), then set `num_gpus = len(self.props_buffer.keys())`. -/
def trackerInit (fetch : Except FetchError SnapshotSet) (pollingRate : Nat) :
    Except FetchError TrackerState :=
  let st : TrackerState :=
    { pollingRate := pollingRate, propsBuffer := none, numGpus := 0 }
  match trackerPoll fetch st with
  | .error e => .error e
  | .ok st2 =>
    .ok { st2 with numGpus := (st2.propsBuffer.getD []).length }

/-! ### PollThread (`tui.py`) -/

/-- Status of the polling thread: `running` (loop will iterate again),
`stopped` (loop observed `stop_event` and exited cleanly), `dead e` (an
exception escaped `run`, terminating the thread). -/
inductive ThreadStatus where
  | running
  | stopped
  | dead (e : FetchError)
  deriving DecidableEq, Repr

/-- State of the poll loop: the tracker it polls plus its thread status. -/
structure PollLoopState where
  tracker : TrackerState
  status : ThreadStatus
  deriving DecidableEq, Repr

/-- Result of one pass through `PollThread.run`'s while loop: the new loop
state and the seconds slept this iteration (`none` when no `sleep` ran). -/
structure IterOutcome where
  state : PollLoopState
  slept : Option Nat
  deriving DecidableEq, Repr

/-- Embeds one iteration of `PollThread.run`:
`while not self.stop_event.isSet(): self.tracker.poll(); sleep(1)`.
If the stop event is set the loop exits; otherwise it polls — an exception
from `poll` escapes `run` and kills the thread — and then sleeps a
hard-coded `1` second. -/
def pollLoopIter (stopSet : Bool) (fetch : Except FetchError SnapshotSet)
    (st : PollLoopState) : IterOutcome :=
  if stopSet then ⟨{ st with status := .stopped }, none⟩
  else
    match trackerPoll fetch st.tracker with
    | .error e => ⟨{ st with status := .dead e }, none⟩
    | .ok tr => ⟨⟨tr, .running⟩, some 1⟩

/-! ### Overwatch renderer (`FrontEnd._draw_overwatch`, `FrontEnd.draw_bar`) -/

/-- Python `int(...)` applied to an exact rational: truncation toward zero. -/
def pyTrunc (q : ℚ) : Int :=
  Int.tdiv q.num (q.den : Int)

/-- An exception escaping a drawing routine: Python's `ZeroDivisionError`
from a percent derivation with a zero denominator. -/
inductive DrawError where
  | zeroDivisionError
  deriving DecidableEq, Repr

/-- A percent derivation `int(100 * (num / den))` as written in
`_draw_overwatch`; a zero denominator raises `ZeroDivisionError`. -/
def ratioFrac (num den : ℚ) : Except DrawError Int :=
  if den = 0 then .error .zeroDivisionError
  else .ok (pyTrunc (100 * (num / den)))

/-- The memory entry of `FrontEnd.overwatch_labels`. -/
def overwatchLabelMemory : String := "Mem "

/-- The digit character used for zero padding. -/
def zeroChar : Char := Char.ofNat 48

/-- The temperature entry of `FrontEnd.overwatch_labels`. -/
def overwatchLabelTemperature : String := "Tmp "

/-- The power entry of `FrontEnd.overwatch_labels`. -/
def overwatchLabelPower : String := "Pwr "

/-- The fan entry of `FrontEnd.overwatch_labels`. -/
def overwatchLabelFan : String := "Fan "

/-- `self.indent` set in `FrontEnd.__init__`. -/
def frontIndent : Nat := 4

/-- Python `"{:03}".format(n)`: zero-pad the decimal form to width 3,
keeping a minus sign in front of the padding. -/
def zeroPad3 (n : Int) : String :=
  let sign := if n < 0 then "-" else ""
  let mag := toString n.natAbs
  if sign.length + mag.length < 3 then
    sign ++ String.mk (List.replicate (3 - sign.length - mag.length) zeroChar) ++ mag
  else sign ++ mag

/-- The filled/unfilled segment lengths computed by `FrontEnd.draw_bar`:
`length = size_x - x - 4`, `filled = int(length * (percent / 100.0))`,
`unfilled = length - filled`. -/
structure Bar where
  filled : Int
  unfilled : Int
  deriving DecidableEq, Repr

/-- Embeds the arithmetic of `FrontEnd.draw_bar` for a window of width
`sizeX` and a bar starting at column `x`. -/
def drawBar (sizeX x : Nat) (percent : Int) : Bar :=
  let length : Int := (sizeX : Int) - (x : Int) - 4
  let filled := pyTrunc ((length : ℚ) * ((percent : ℚ) / 100))
  { filled := filled, unfilled := length - filled }

/-- Everything `_draw_overwatch` computes for one GPU cell: the four label
strings, the header, the four percent fractions, their severity colors and
their bars. -/
structure OverwatchCell where
  header : String
  memString : String
  fanString : String
  tempString : String
  powerString : String
  memFrac : Int
  powerFrac : Int
  tempFrac : Int
  fanFrac : Int
  fanColor : Color
  memColor : Color
  powerColor : Color
  tempColor : Color
  memBar : Bar
  fanBar : Bar
  tempBar : Bar
  powerBar : Bar
  deriving DecidableEq, Repr

/-- Embeds the per-GPU body of `FrontEnd._draw_overwatch` for device
`gpuId` with snapshot `s`, in a cell of width `sizeX`: format the four
strings, derive `mem_frac`, `power_frac`, `temp_frac` (in source order, a
zero denominator raising `ZeroDivisionError`), take `fan_frac` raw, apply
`_determine_color` to each fraction unchanged, and hand each raw fraction
to `draw_bar`. -/
def drawOverwatchCell (sizeX gpuId : Nat) (s : DeviceSnapshot) :
    Except DrawError OverwatchCell :=
  let memString := overwatchLabelMemory ++ toString s.usedMem ++ "/" ++
    toString s.totalMem ++ " MiB"
  let fanString := overwatchLabelFan ++ toString s.fan ++ " %"
  let tempString := overwatchLabelTemperature ++ toString (pyTrunc s.temp) ++
    "/" ++ toString (pyTrunc s.maxTemp) ++ " C"
  let powerString := overwatchLabelPower ++ toString (pyTrunc s.usedPower) ++
    "/" ++ toString (pyTrunc s.powerLimit) ++ " W"
  match ratioFrac (s.usedMem : ℚ) (s.totalMem : ℚ) with
  | .error e => .error e
  | .ok memFrac =>
    match ratioFrac s.usedPower s.powerLimit with
    | .error e => .error e
    | .ok powerFrac =>
      match ratioFrac s.temp s.maxTemp with
      | .error e => .error e
      | .ok tempFrac =>
        let fanFrac := s.fan
        .ok
          { header := " " ++ toString gpuId ++ ": " ++ s.name ++ " (" ++
              zeroPad3 s.utilization ++ "%)"
            memString := memString
            fanString := fanString
            tempString := tempString
            powerString := powerString
            memFrac := memFrac
            powerFrac := powerFrac
            tempFrac := tempFrac
            fanFrac := fanFrac
            fanColor := determineColor fanFrac
            memColor := determineColor memFrac
            powerColor := determineColor powerFrac
            tempColor := determineColor tempFrac
            memBar := drawBar sizeX frontIndent memFrac
            fanBar := drawBar sizeX frontIndent fanFrac
            tempBar := drawBar sizeX frontIndent tempFrac
            powerBar := drawBar sizeX frontIndent powerFrac }

/-- The cell-by-cell loop of `_draw_overwatch` starting at device id `i`:
the first exception aborts the remaining iterations. -/
def drawOverwatchFrom (sizeX : Nat) :
    Nat → List DeviceSnapshot → Except DrawError (List OverwatchCell)
  | _, [] => .ok []
  | i, s :: rest =>
    match drawOverwatchCell sizeX i s with
    | .error e => .error e
    | .ok c =>
      match drawOverwatchFrom sizeX (i + 1) rest with
      | .error e => .error e
      | .ok cs => .ok (c :: cs)

/-- Embeds `FrontEnd._draw_overwatch` over the whole buffer: a `None`
buffer draws nothing; otherwise every device cell is drawn in id order and
the first exception aborts the whole redraw. -/
def drawOverwatch (sizeX : Nat) (buffer : Option SnapshotSet) :
    Except DrawError (List OverwatchCell) :=
  match buffer with
  | none => .ok []
  | some snaps => drawOverwatchFrom sizeX 0 snaps

/-! ### Process renderer (`FrontEnd._draw_process`) -/

/-- The per-process line of `_draw_process`:
`"{}: {} {} {} {}".format(proc["user"], process, proc["name"],
proc["lifetime"], proc["mem"])` — the third field is the `name` parsed
from the diagnostics XML. -/
def procString (pid : Nat) (p : ProcessInfo) : String :=
  p.user ++ ": " ++ toString pid ++ " " ++ p.name ++ " " ++ p.lifetime ++
    " " ++ toString p.mem

/-- Modelled from the spec: the per-process line as §4.4 words it,
`"{user}: {pid} {command} {lifetime} {mem}"`, whose third field is the
`command` obtained from the process-inspection utility (`ps`). -/
def specProcString (pid : Nat) (p : ProcessInfo) : String :=
  p.user ++ ": " ++ toString pid ++ " " ++ p.command ++ " " ++ p.lifetime ++
    " " ++ toString p.mem

/-- One `window.addstr(y, x, text)` call. -/
structure ScreenWrite where
  y : Nat
  x : Nat
  text : String
  deriving DecidableEq, Repr

/-- Model of curses `addstr` success on a `scrollok` window of height
`sizeY` and width `sizeX`: the call raises `curses.error` iff its start
position lies outside the window. -/
def addstrOk (sizeY sizeX y x : Nat) : Bool :=
  decide (y < sizeY) && decide (x < sizeX)

/-- The per-process lines of `_draw_process`'s `for i, process in
enumerate(processes)` loop, starting at enumeration index `i`. -/
def processLineWrites : Nat → List (Nat × ProcessInfo) → List ScreenWrite
  | _, [] => []
  | i, pp :: rest =>
    ⟨2 + i, frontIndent, procString pp.1 pp.2⟩ :: processLineWrites (i + 1) rest

/-- The sequence of `addstr` calls the `try` block of `_draw_process`
attempts for device `gpuId`: the header `" {id}: {name} "` at `(1, 1)`,
then one `proc_string` per process at `(2 + i, indent)`. -/
def processCellWrites (gpuId : Nat) (s : DeviceSnapshot) : List ScreenWrite :=
  ⟨1, 1, " " ++ toString gpuId ++ ": " ++ s.name ++ " "⟩ ::
    processLineWrites 0 s.processes

/-- The placeholder written by the `except` branch of `_draw_process`. -/
def expandTerminalMsg : String := "Expand terminal - currently too small ..."

/-- Embeds the per-GPU body of `_draw_process`: attempt the header and
process lines inside `try`; if any `addstr` raises (its position falls
outside the cell), the `except` branch writes the single placeholder line
at `(1, 1)` instead. -/
def drawProcessCell (sizeY sizeX gpuId : Nat) (s : DeviceSnapshot) :
    List ScreenWrite :=
  let ws := processCellWrites gpuId s
  if ws.all fun w => addstrOk sizeY sizeX w.y w.x then ws
  else [⟨1, 1, expandTerminalMsg⟩]

/-! ### FrontEnd view state and the main loop (`scripts/__main__.py`) -/

/-- The two values of `FrontEnd.current_view`. -/
inductive View where
  | overwatch
  | process
  deriving DecidableEq, Repr

/-- The FrontEnd attributes the input loop mutates: the current view, the
grid geometry from the last `_initialize_gpu_windows`, and whether
`clear_array` has wiped the window contents. -/
structure FrontState where
  view : View
  grid : Grid
  windowsCleared : Bool
  deriving DecidableEq, Repr

/-- Embeds `FrontEnd._swap_view`: two guarded branches, each setting the
other view, calling `clear_array` and returning.  Only `current_view` and
the window contents change; the grid geometry is untouched. -/
def swapViewState (st : FrontState) : FrontState :=
  if st.view = View.overwatch then
    { st with view := View.process, windowsCleared := true }
  else if st.view = View.process then
    { st with view := View.overwatch, windowsCleared := true }
  else st

/-- `ord "q"`. -/
def ordLowerQ : Nat := 113

/-- `ord "Q"`. -/
def ordUpperQ : Nat := 81

/-- `ord "p"`. -/
def ordLowerP : Nat := 112

/-- The exit test of `main`'s input loop, `while ch != ord("q")`: the loop
exits exactly when the last key read was lowercase `q`. -/
def mainLoopExits (ch : Nat) : Bool :=
  ch == ordLowerQ

/-- Embeds one pass of `main`'s input-loop body after `ch = screen.getch()`:
a detected resize re-runs `front.resize` (hence `_initialize_gpu_windows`,
whose `RuntimeError` propagates fatally); otherwise `ord("p")` triggers
`front._swap_view()`; any other key only refreshes. -/
def mainLoopBody (resized : Bool) (ch rows cols numGpus : Nat)
    (st : FrontState) : Except LayoutError FrontState :=
  if resized then
    match initializeGpuWindows rows cols numGpus with
    | .error e => .error e
    | .ok g => .ok { st with grid := g }
  else if ch == ordLowerP then .ok (swapViewState st)
  else .ok st

/-- Errors that can abort `main` before the dashboard runs. -/
inductive StartupError where
  | fetch (e : FetchError)
  | layout (e : LayoutError)
  deriving DecidableEq, Repr

/-- Embeds the startup sequence of `main`: `Tracker(query)` is constructed
first — a fetch exception there propagates and the dashboard never starts —
and only then are curses and the `FrontEnd` (hence the grid) initialized. -/
def mainStartup (fetch : Except FetchError SnapshotSet) (rows cols : Nat) :
    Except StartupError (TrackerState × FrontState) :=
  match trackerInit fetch 1 with
  | .error e => .error (.fetch e)
  | .ok tr =>
    match initializeGpuWindows rows cols tr.numGpus with
    | .error e => .error (.layout e)
    | .ok g =>
      .ok (tr, { view := View.overwatch, grid := g, windowsCleared := false })

/-- Embeds the shutdown path after the input loop exits (`front.stop()`,
i.e. `PollThread.join`): the stop event is set and the next loop iteration
observes it and exits; `curses.endwin()` then releases the terminal. -/
def mainShutdown (fetch : Except FetchError SnapshotSet)
    (st : PollLoopState) : IterOutcome :=
  pollLoopIter true fetch st

/-! ### Helper lemmas -/

/-- Anatomy of a successful `_initialize_gpu_windows`: the grid side comes
from `initializeWinRows` and the cell dimensions from the floor divisions. -/
theorem initializeGpuWindows_ok {rows cols n : Nat} {g : Grid}
    (h : initializeGpuWindows rows cols n = .ok g) :
    initializeWinRows n = some g.winRows ∧
    g.winSizeY = rows / g.winRows - 1 ∧
    g.winSizeX = cols / g.winRows - 1 := by
  unfold initializeGpuWindows at h
  cases hw : initializeWinRows n with
  | none => rw [hw] at h; exact absurd h (by simp)
  | some G =>
    rw [hw] at h
    dsimp only at h
    split_ifs at h with hy hx
    all_goals rw [Except.ok.injEq] at h
    all_goals subst h
    all_goals exact ⟨rfl, rfl, rfl⟩

/-! ### Claim C1 — severity classification boundaries -/

/-- C1 counterexample: the claim says the boundary value 33 classifies as
medium, but `_determine_color` sends 33 to the high color (pair 3): the
medium branch tests `val > 33 and val < 66`, which excludes 33. -/
theorem c1_boundary_33_not_medium :
    determineColor 33 = Color.high ∧ determineColor 33 ≠ Color.medium := by
  decide

/-- C1 (amended): severity classification is a total function: every value
`v < 33` maps to low, every `v` with `33 < v < 66` maps to medium, every
`v ≥ 66` maps to high, and the boundary value 33 maps to high (not medium);
each value, including the boundaries 33 and 66, maps to exactly one of the
three classes. -/
theorem c1_severity_classification (v : Int) :
    (determineColor v = Color.low ∨ determineColor v = Color.medium ∨
      determineColor v = Color.high) ∧
    (v < 33 → determineColor v = Color.low) ∧
    (33 < v → v < 66 → determineColor v = Color.medium) ∧
    (66 ≤ v → determineColor v = Color.high) ∧
    (v = 33 → determineColor v = Color.high) := by
  unfold determineColor
  split_ifs with h1 h2
  · exact ⟨Or.inl rfl, fun _ => rfl, fun h _ => absurd h1 (by omega),
      fun h => absurd h1 (by omega), fun h => by omega⟩
  · exact ⟨Or.inr (Or.inl rfl), fun h => by omega, fun _ _ => rfl,
      fun h => by omega, fun h => by omega⟩
  · exact ⟨Or.inr (Or.inr rfl), fun h => by omega, fun ha hb => by omega,
      fun _ => rfl, fun _ => rfl⟩

/-- C1 witness: concrete classifications at 20, 40, 66 and the boundary 33. -/
theorem c1_severity_classification_witness :
    determineColor 20 = Color.low ∧ determineColor 40 = Color.medium ∧
    determineColor 66 = Color.high ∧ determineColor 33 = Color.high :=
  ⟨(c1_severity_classification 20).2.1 (by decide),
   (c1_severity_classification 40).2.2.1 (by decide) (by decide),
   (c1_severity_classification 66).2.2.2.1 (by decide),
   (c1_severity_classification 33).2.2.2.2 rfl⟩

/-! ### Claim C2 — grid layout for 1–9 devices -/

/-- C2: for 1–9 devices the grid side is `ceil (sqrt n)` (the smallest
`G ∈ {1,2,3}` with `G² ≥ n`), each cell measures
`(rows / G − 1) × (cols / G − 1)`, device `i` sits in cell
`(i div G, i mod G)`, and the 120×40-terminal, 3-device scenario yields
`G = 2`, cell size 19×59 with device 2 in cell `(1, 0)`. -/
theorem c2_grid_layout (n rows cols gpuId : Nat) (h1 : 1 ≤ n) (h9 : n ≤ 9) :
    (initializeWinRows n = some (ceilSqrt n) ∧
      (ceilSqrt n = 1 ∨ ceilSqrt n = 2 ∨ ceilSqrt n = 3) ∧
      n ≤ ceilSqrt n ^ 2 ∧ (ceilSqrt n - 1) ^ 2 < n) ∧
    (∀ g : Grid, initializeGpuWindows rows cols n = .ok g →
      g.winRows = ceilSqrt n ∧ g.winSizeY = rows / ceilSqrt n - 1 ∧
      g.winSizeX = cols / ceilSqrt n - 1) ∧
    devicePos (ceilSqrt n) gpuId = (gpuId / ceilSqrt n, gpuId % ceilSqrt n) ∧
    initializeGpuWindows 40 120 3 = .ok ⟨2, 19, 59⟩ ∧
    devicePos 2 2 = (1, 0) := by
  have hwin : initializeWinRows n = some (ceilSqrt n) := by
    interval_cases n <;> decide
  refine ⟨⟨hwin, ?_⟩, ?_, rfl, rfl, rfl⟩
  · interval_cases n <;> exact ⟨by decide, by decide, by decide⟩
  · intro g hg
    obtain ⟨hw, hy, hx⟩ := initializeGpuWindows_ok hg
    rw [hwin, Option.some.injEq] at hw
    exact ⟨hw.symm, by rw [hy, ← hw], by rw [hx, ← hw]⟩

/-- C2 witness: the 3-device case on a 120×40 terminal. -/
theorem c2_grid_layout_witness :
    initializeWinRows 3 = some (ceilSqrt 3) ∧
    initializeGpuWindows 40 120 3 = .ok ⟨2, 19, 59⟩ :=
  ⟨(c2_grid_layout 3 40 120 2 (by decide) (by decide)).1.1,
   (c2_grid_layout 3 40 120 2 (by decide) (by decide)).2.2.2.1⟩

/-! ### Claim C5 — more than nine devices -/

/-- C5: for more than nine devices every diff `G² − n` is negative, so
`min` is applied to an empty sequence and `_initialize_gpu_windows` raises
(`ValueError`) instead of laying out a partial grid. -/
theorem c5_unsupported_count (n rows cols : Nat) (h : 9 < n) :
    initializeWinRows n = none ∧
    initializeGpuWindows rows cols n = .error .valueErrorMinEmpty := by
  have hw : initializeWinRows n = none := by
    unfold initializeWinRows
    have b1 : ¬ (n ≤ 1) := by omega
    have b4 : ¬ (n ≤ 4) := by omega
    have b9 : ¬ (n ≤ 9) := by omega
    simp [List.range_succ, List.filter_cons, pyMinList, b1, b4, b9]
  refine ⟨hw, ?_⟩
  unfold initializeGpuWindows
  rw [hw]

/-- C5 witness: ten devices on an ample terminal still fail. -/
theorem c5_unsupported_count_witness :
    initializeWinRows 10 = none ∧
    initializeGpuWindows 50 200 10 = .error .valueErrorMinEmpty :=
  c5_unsupported_count 10 50 200 (by decide)

/-! ### Claim C9 — double view toggle -/

/-- C9: toggling the view twice restores the view identity, and a toggle
never touches the grid geometry at all, so the double toggle also leaves
the geometry identical. -/
theorem c9_double_toggle (st : FrontState) :
    (swapViewState (swapViewState st)).view = st.view ∧
    (swapViewState (swapViewState st)).grid = st.grid ∧
    (swapViewState st).grid = st.grid := by
  obtain ⟨v, g, w⟩ := st
  cases v <;> simp [swapViewState]

/-! ### Claim C3 — fetch-error handling -/

/-- C3 counterexample: a fetch error during a later poll-loop iteration
kills the thread — `PollThread.run` wraps `self.tracker.poll()` in no
`try`/`except`, so the loop does not continue polling. -/
theorem c3_poll_error_kills_thread :
    (pollLoopIter false (.error .fetchFailure)
        ⟨⟨1, some [], 1⟩, .running⟩).state.status ≠ ThreadStatus.running ∧
    (pollLoopIter false (.error .fetchFailure)
        ⟨⟨1, some [], 1⟩, .running⟩).state.status =
      ThreadStatus.dead .fetchFailure :=
  ⟨by decide, rfl⟩

/-- C3 (amended): a fetch error at Tracker construction is fatal and the
dashboard never starts; a fetch error during a later poll-loop iteration
leaves the previously published snapshot buffer unchanged and performs no
sleep, but the uncaught exception terminates the polling thread instead of
letting it continue polling. -/
theorem c3_fetch_error_handling (e : FetchError) (rows cols : Nat)
    (st : PollLoopState) (fetch : Except FetchError SnapshotSet)
    (hf : fetch = .error e) :
    mainStartup fetch rows cols = .error (.fetch e) ∧
    (pollLoopIter false fetch st).state.tracker = st.tracker ∧
    (pollLoopIter false fetch st).state.status = .dead e ∧
    (pollLoopIter false fetch st).slept = none := by
  subst hf
  exact ⟨rfl, rfl, rfl, rfl⟩

/-- C3 witness: the concrete failing fetch on a 120×40 terminal. -/
theorem c3_fetch_error_handling_witness :
    mainStartup (.error .fetchFailure) 40 120 = .error (.fetch .fetchFailure) ∧
    (pollLoopIter false (.error .fetchFailure)
        ⟨⟨1, some [], 1⟩, .running⟩).state.tracker = (⟨1, some [], 1⟩ : TrackerState) :=
  ⟨(c3_fetch_error_handling .fetchFailure 40 120 ⟨⟨1, some [], 1⟩, .running⟩
      (.error .fetchFailure) rfl).1,
   (c3_fetch_error_handling .fetchFailure 40 120 ⟨⟨1, some [], 1⟩, .running⟩
      (.error .fetchFailure) rfl).2.1⟩

/-! ### Claim C6 — poll cadence -/

/-- C6 counterexample: with a configured polling rate of 5, a successful
iteration still sleeps exactly 1 second — `PollThread.run` calls
`sleep(1)` and never consults `Tracker.polling_rate`. -/
theorem c6_sleep_ignores_polling_rate :
    (pollLoopIter false (.ok []) ⟨⟨5, some [], 1⟩, .running⟩).slept = some 1 ∧
    (pollLoopIter false (.ok []) ⟨⟨5, some [], 1⟩, .running⟩).slept ≠
      some (⟨5, some [], 1⟩ : TrackerState).pollingRate :=
  ⟨rfl, by decide⟩

/-- C6 (amended): each poll-loop iteration polls via the Tracker
(publishing the fetched snapshot set, keeping the configured rate) and
then sleeps a hard-coded 1 second — not the Tracker's `polling_rate`
constructor parameter, which the loop ignores — before repeating; once the
cancellation signal is observed the loop exits without polling or
sleeping. -/
theorem c6_poll_loop_iteration (st : PollLoopState) (snaps : SnapshotSet)
    (fetch : Except FetchError SnapshotSet) :
    (pollLoopIter false (.ok snaps) st).state.tracker.propsBuffer = some snaps ∧
    (pollLoopIter false (.ok snaps) st).state.tracker.pollingRate =
      st.tracker.pollingRate ∧
    (pollLoopIter false (.ok snaps) st).slept = some 1 ∧
    (pollLoopIter false (.ok snaps) st).state.status = .running ∧
    (pollLoopIter true fetch st).state = { st with status := .stopped } ∧
    (pollLoopIter true fetch st).slept = none :=
  ⟨rfl, rfl, rfl, rfl, rfl, rfl⟩

/-! ### Claim C8 — key handling -/

/-- A concrete dashboard state for the key-handling counterexample. -/
def c8State : FrontState :=
  ⟨View.overwatch, ⟨2, 19, 59⟩, false⟩

/-- C8 counterexample: `main` loops `while ch != ord("q")`, so uppercase
`Q` (code 81) neither exits the loop nor changes any state. -/
theorem c8_upper_q_does_not_quit :
    mainLoopExits ordUpperQ = false ∧
    mainLoopBody false ordUpperQ 40 120 3 c8State = .ok c8State :=
  ⟨rfl, rfl⟩

/-- C8 (amended): pressing lowercase `q` quits the dashboard — the input
loop exits and shutdown sets the stop event, which the poll loop observes
and stops without another poll — but uppercase `Q` does not quit;
pressing `p` toggles the active view. -/
theorem c8_input_handling (rows cols numGpus : Nat) (st : FrontState)
    (fetch : Except FetchError SnapshotSet) (pst : PollLoopState) :
    mainLoopExits ordLowerQ = true ∧
    mainLoopExits ordUpperQ = false ∧
    mainLoopBody false ordLowerP rows cols numGpus st = .ok (swapViewState st) ∧
    (mainShutdown fetch pst).state.status = .stopped ∧
    (mainShutdown fetch pst).state.tracker = pst.tracker ∧
    (mainShutdown fetch pst).slept = none :=
  ⟨rfl, rfl, rfl, rfl, rfl, rfl⟩

/-! ### Arithmetic helper lemmas -/

/-- For nonnegative integers, the Python expression `int(a / b)` (exact
division, truncated) agrees with floor division. -/
theorem pyTrunc_natCast_div (a b : Nat) :
    pyTrunc ((a : ℚ) / (b : ℚ)) = ((a / b : ℕ) : ℤ) := by
  unfold pyTrunc
  have hq0 : (0 : ℚ) ≤ (a : ℚ) / (b : ℚ) := by positivity
  have hnum : 0 ≤ ((a : ℚ) / (b : ℚ)).num := Rat.num_nonneg.mpr hq0
  have hden : (0 : ℤ) ≤ (((a : ℚ) / (b : ℚ)).den : ℤ) := Int.natCast_nonneg _
  rw [Int.tdiv_eq_ediv hnum hden, ← Rat.floor_def]
  exact_mod_cast Rat.floor_natCast_div_natCast a b

/-- The percent derivation on nonnegative integer telemetry is exactly
floor division by the total. -/
theorem ratioFrac_natCast (u t : Nat) (ht : t ≠ 0) :
    ratioFrac (u : ℚ) (t : ℚ) = .ok ((100 * u / t : ℕ) : ℤ) := by
  unfold ratioFrac
  rw [if_neg (by exact_mod_cast ht)]
  rw [show (100 : ℚ) * ((u : ℚ) / (t : ℚ)) =
    (((100 * u : ℕ) : ℚ) / ((t : ℕ) : ℚ)) by push_cast; ring]
  rw [pyTrunc_natCast_div (100 * u) t]

/-- `processLineWrites` emits one line per process. -/
theorem processLineWrites_length (k : Nat) (ps : List (Nat × ProcessInfo)) :
    (processLineWrites k ps).length = ps.length := by
  induction ps generalizing k with
  | nil => rfl
  | cons p rest ih => simp [processLineWrites, ih]

/-- The `i`-th line of `processLineWrites` renders the `i`-th process at
row `2 + (k + i)`. -/
theorem processLineWrites_getElem (k i : Nat) (ps : List (Nat × ProcessInfo)) :
    (processLineWrites k ps)[i]? =
      (ps[i]?).map fun p =>
        (⟨2 + (k + i), frontIndent, procString p.1 p.2⟩ : ScreenWrite) := by
  induction ps generalizing k i with
  | nil => simp [processLineWrites]
  | cons p rest ih =>
    cases i with
    | zero => simp [processLineWrites]
    | succ j =>
      have hk : k + 1 + j = k + (j + 1) := by omega
      simp only [processLineWrites, List.getElem?_cons_succ, ih (k + 1) j, hk]

/-! ### Claim C4 — memory percent and division by zero -/

/-- A snapshot whose reported total memory is zero. -/
def c4Snap : DeviceSnapshot :=
  { name := "A100", totalMem := 0, usedMem := 5, fan := 10, temp := 50,
    maxTemp := 100, usedPower := 100, powerLimit := 200, utilization := 7,
    processes := [] }

/-- C4 (amended): for `total > 0` and `used ≤ total` the derived memory
percent `floor(100*used/total)` lies in `[0, 100]`; but when the total is
zero the percent derivation raises `ZeroDivisionError`, a language-level
division fault that propagates out of the cell and aborts the whole
redraw — the renderer substitutes no neutral display. -/
theorem c4_mem_percent (used total sizeX gpuId : Nat) (s : DeviceSnapshot)
    (rest : List DeviceSnapshot) (h1 : 0 < total) (h2 : used ≤ total)
    (h0 : s.totalMem = 0) :
    (ratioFrac (used : ℚ) (total : ℚ) = .ok ((100 * used / total : ℕ) : ℤ) ∧
      (0 : ℤ) ≤ ((100 * used / total : ℕ) : ℤ) ∧
      ((100 * used / total : ℕ) : ℤ) ≤ 100) ∧
    drawOverwatchCell sizeX gpuId s = .error .zeroDivisionError ∧
    drawOverwatch sizeX (some (s :: rest)) = .error .zeroDivisionError := by
  have hcell : ∀ gid, drawOverwatchCell sizeX gid s = .error .zeroDivisionError := by
    intro gid
    have hz : ratioFrac (s.usedMem : ℚ) (s.totalMem : ℚ) =
        .error .zeroDivisionError := by
      unfold ratioFrac
      rw [h0]
      simp
    unfold drawOverwatchCell
    rw [hz]
  have hb : 100 * used / total ≤ 100 := by
    have hmul : 100 * used ≤ 100 * total := Nat.mul_le_mul_left 100 h2
    calc 100 * used / total ≤ 100 * total / total := Nat.div_le_div_right hmul
      _ ≤ 100 := Nat.div_le_of_le_mul (by omega)
  refine ⟨⟨ratioFrac_natCast used total (by omega), Int.natCast_nonneg _,
    by exact_mod_cast hb⟩, hcell gpuId, ?_⟩
  simp [drawOverwatch, drawOverwatchFrom, hcell 0]

/-- C4 witness: `used = 4096`, `total = 8192` yields percent 50, and the
concrete zero-total snapshot aborts the redraw. -/
theorem c4_mem_percent_witness :
    ratioFrac ((4096 : ℕ) : ℚ) ((8192 : ℕ) : ℚ) =
      .ok ((100 * 4096 / 8192 : ℕ) : ℤ) ∧
    drawOverwatch 59 (some [c4Snap]) = .error .zeroDivisionError :=
  ⟨(c4_mem_percent 4096 8192 59 0 c4Snap [] (by decide) (by decide) rfl).1.1,
   (c4_mem_percent 4096 8192 59 0 c4Snap [] (by decide) (by decide) rfl).2.2⟩

/-- C4 counterexample: with `total_mem = 0` the renderer does not
substitute a neutral display for the metric — the entire overwatch redraw
aborts with the `ZeroDivisionError`. -/
theorem c4_zero_total_fails_redraw :
    drawOverwatch 59 (some [c4Snap]) = .error .zeroDivisionError := by
  have hz : ratioFrac (c4Snap.usedMem : ℚ) (c4Snap.totalMem : ℚ) =
      .error .zeroDivisionError := by
    unfold ratioFrac
    simp [c4Snap]
  have hcell : drawOverwatchCell 59 0 c4Snap = .error .zeroDivisionError := by
    unfold drawOverwatchCell
    rw [hz]
  simp [drawOverwatch, drawOverwatchFrom, hcell]

/-! ### Claim C7 — process-list view -/

/-- A concrete process entry whose XML-reported name (`python3`) differs
from its `ps` command (`python`). -/
def c7Proc : ProcessInfo :=
  ⟨"python3", 512, "alice", "01:00", "python"⟩

/-- A concrete one-process snapshot for the process-view theorems. -/
def c7Snap : DeviceSnapshot :=
  { name := "A100", totalMem := 8192, usedMem := 4096, fan := 40, temp := 50,
    maxTemp := 100, usedPower := 100, powerLimit := 200, utilization := 7,
    processes := [(42, c7Proc)] }

/-- C7 counterexample: the rendered process line shows the XML-parsed
process name (`python3`), not the `command` field obtained from the
process-inspection utility (`python`) as the claim's format states. -/
theorem c7_line_shows_xml_name_not_command :
    procString 42 c7Proc ≠ specProcString 42 c7Proc ∧
    procString 42 c7Proc = "alice: 42 python3 01:00 512" ∧
    specProcString 42 c7Proc = "alice: 42 python 01:00 512" ∧
    (drawProcessCell 19 59 0 c7Snap).map ScreenWrite.text =
      [" 0: A100 ", "alice: 42 python3 01:00 512"] :=
  ⟨by decide, rfl, rfl, rfl⟩

/-- C7 (amended): each process cell renders a header line with the device
index and name, followed by one line per running process formatted
`"{user}: {pid} {name} {lifetime} {mem}"` — the third field being the
process name parsed from the diagnostics XML, not the `ps` command — and
if any line's position falls outside the cell, the cell renders the single
"expand terminal" placeholder line instead of throwing. -/
theorem c7_process_view (sizeY sizeX gpuId : Nat) (s : DeviceSnapshot) :
    (processCellWrites gpuId s).head? =
      some ⟨1, 1, " " ++ toString gpuId ++ ": " ++ s.name ++ " "⟩ ∧
    (processCellWrites gpuId s).length = 1 + s.processes.length ∧
    (∀ i : Nat, (processCellWrites gpuId s)[i + 1]? =
      (s.processes[i]?).map fun p =>
        (⟨2 + i, frontIndent, procString p.1 p.2⟩ : ScreenWrite)) ∧
    (((processCellWrites gpuId s).all fun w => addstrOk sizeY sizeX w.y w.x) = true →
      drawProcessCell sizeY sizeX gpuId s = processCellWrites gpuId s) ∧
    (((processCellWrites gpuId s).all fun w => addstrOk sizeY sizeX w.y w.x) = false →
      drawProcessCell sizeY sizeX gpuId s = [⟨1, 1, expandTerminalMsg⟩]) := by
  refine ⟨rfl, ?_, ?_, ?_, ?_⟩
  · simp [processCellWrites, processLineWrites_length, Nat.add_comm]
  · intro i
    have h := processLineWrites_getElem 0 i s.processes
    simpa [processCellWrites] using h
  · intro hall
    simp [drawProcessCell, hall]
  · intro hall
    simp [drawProcessCell, hall]

/-- C7 witness: the one-process snapshot in a 19×59 cell renders the
header plus its line; in a 2-row cell it degrades to the placeholder. -/
theorem c7_process_view_witness :
    (processCellWrites 0 c7Snap)[0 + 1]? =
      some ⟨2 + 0, frontIndent, procString 42 c7Proc⟩ ∧
    drawProcessCell 19 59 0 c7Snap = processCellWrites 0 c7Snap ∧
    drawProcessCell 2 30 0 c7Snap = [⟨1, 1, expandTerminalMsg⟩] :=
  ⟨by simpa using (c7_process_view 19 59 0 c7Snap).2.2.1 0,
   (c7_process_view 19 59 0 c7Snap).2.2.2.1 (by decide),
   (c7_process_view 2 30 0 c7Snap).2.2.2.2 (by decide)⟩

/-! ### Claim C10 — severity color is total on all integers, unclamped -/

/-- A concrete snapshot with inconsistent upstream values: used memory
exceeds total (percent 150) and a negative fan reading. -/
def c10Snap : DeviceSnapshot :=
  { name := "A100", totalMem := 2000, usedMem := 3000, fan := -5, temp := 50,
    maxTemp := 100, usedPower := 100, powerLimit := 200, utilization := 7,
    processes := [] }

/-- C10: `_determine_color` is total on all integers — every input maps to
exactly one of the three colors — with every value below 33 (negatives
included) classifying low and every value above 100 classifying high; and
the overwatch renderer applies no clamping: each severity color is
computed from the raw derived fraction and each bar is drawn from the same
raw fraction (the fan fraction being the raw fan reading). -/
theorem c10_severity_total_unclamped (v : Int) (sizeX gpuId : Nat)
    (s : DeviceSnapshot) (c : OverwatchCell)
    (hok : drawOverwatchCell sizeX gpuId s = .ok c) :
    ((determineColor v = Color.low ∧ determineColor v ≠ Color.medium ∧
        determineColor v ≠ Color.high) ∨
      (determineColor v = Color.medium ∧ determineColor v ≠ Color.low ∧
        determineColor v ≠ Color.high) ∨
      (determineColor v = Color.high ∧ determineColor v ≠ Color.low ∧
        determineColor v ≠ Color.medium)) ∧
    (v < 33 → determineColor v = Color.low) ∧
    (100 < v → determineColor v = Color.high) ∧
    (c.memColor = determineColor c.memFrac ∧
      c.fanColor = determineColor c.fanFrac ∧
      c.powerColor = determineColor c.powerFrac ∧
      c.tempColor = determineColor c.tempFrac) ∧
    (c.memBar = drawBar sizeX frontIndent c.memFrac ∧
      c.fanBar = drawBar sizeX frontIndent c.fanFrac ∧
      c.powerBar = drawBar sizeX frontIndent c.powerFrac ∧
      c.tempBar = drawBar sizeX frontIndent c.tempFrac) ∧
    c.fanFrac = s.fan := by
  have hcolors :
      (c.memColor = determineColor c.memFrac ∧
        c.fanColor = determineColor c.fanFrac ∧
        c.powerColor = determineColor c.powerFrac ∧
        c.tempColor = determineColor c.tempFrac) ∧
      (c.memBar = drawBar sizeX frontIndent c.memFrac ∧
        c.fanBar = drawBar sizeX frontIndent c.fanFrac ∧
        c.powerBar = drawBar sizeX frontIndent c.powerFrac ∧
        c.tempBar = drawBar sizeX frontIndent c.tempFrac) ∧
      c.fanFrac = s.fan := by
    unfold drawOverwatchCell at hok
    cases hm : ratioFrac (s.usedMem : ℚ) (s.totalMem : ℚ) with
    | error e => rw [hm] at hok; exact absurd hok (by simp)
    | ok mf =>
      rw [hm] at hok
      cases hp : ratioFrac s.usedPower s.powerLimit with
      | error e => rw [hp] at hok; exact absurd hok (by simp)
      | ok pf =>
        rw [hp] at hok
        cases ht : ratioFrac s.temp s.maxTemp with
        | error e => rw [ht] at hok; exact absurd hok (by simp)
        | ok tf =>
          rw [ht] at hok
          rw [Except.ok.injEq] at hok
          subst hok
          exact ⟨⟨rfl, rfl, rfl, rfl⟩, ⟨rfl, rfl, rfl, rfl⟩, rfl⟩
  refine ⟨?_, ?_, ?_, hcolors.1, hcolors.2.1, hcolors.2.2⟩
  · cases hdv : determineColor v
    · exact Or.inl ⟨rfl, by simp, by simp⟩
    · exact Or.inr (Or.inl ⟨rfl, by simp, by simp⟩)
    · exact Or.inr (Or.inr ⟨rfl, by simp, by simp⟩)
  · intro h
    unfold determineColor
    rw [if_pos h]
  · intro h
    unfold determineColor
    rw [if_neg (by omega), if_neg (by omega)]

/-- C10 witness: the fan reading −5 classifies low, the inconsistent
memory fraction 150 classifies high, and the concrete cell's colors come
from the raw fractions. -/
theorem c10_severity_total_unclamped_witness :
    determineColor (-5) = Color.low ∧ determineColor 150 = Color.high ∧
    (∃ c : OverwatchCell, drawOverwatchCell 59 0 c10Snap = .ok c ∧
      c.memColor = determineColor c.memFrac ∧ c.fanFrac = (-5 : Int)) := by
  refine ⟨(c10_severity_total_unclamped (-5) 59 0 c10Snap _ rfl).2.1 (by decide),
    (c10_severity_total_unclamped 150 59 0 c10Snap _ rfl).2.2.1 (by decide),
    ⟨_, rfl, (c10_severity_total_unclamped 150 59 0 c10Snap _ rfl).2.2.2.1.1,
      (c10_severity_total_unclamped 150 59 0 c10Snap _ rfl).2.2.2.2.2⟩⟩

end GpuArray
